import Mathlib

/-
Verification of the slurmit/myjob Remote Execution & Job Tracking subsystem.

The Python sources are shallowly embedded: pure parsing code becomes Lean
functions over `String`/`List Char`, stateful loops become fuel-indexed
recursions over explicit observation oracles, and filesystem writes become
explicit operation traces.  Python `int()`, `str.strip()`, `str.split()`,
`str.lower()`/`upper()` and the two `re.search` patterns used by the node
monitor are modelled for ASCII text, which covers every format the scheduler
CLI emits.
-/

namespace Slurmit

/-! ## String utilities modelling Python primitives -/

/-- Characters treated as whitespace by Python's `str.strip` / `str.split()`
(ASCII range: space, tab, CR, LF, vertical tab, form feed). -/
def pyWhite (c : Char) : Bool :=
  c.isWhitespace || c = '\x0b' || c = '\x0c'

/-- Python `str.strip()` on a character list. -/
def pyStripList (l : List Char) : List Char :=
  ((l.dropWhile pyWhite).reverse.dropWhile pyWhite).reverse

/-- Python `str.strip()`. -/
def pyStrip (s : String) : String :=
  ⟨pyStripList s.data⟩

/-- Python `str.lower()` (ASCII). -/
def lowerStr (s : String) : String :=
  ⟨s.data.map Char.toLower⟩

/-- Python `str.upper()` (ASCII). -/
def upperStr (s : String) : String :=
  ⟨s.data.map Char.toUpper⟩

/-- Whether the first list is a leading segment of the second. -/
def startsWithB : List Char → List Char → Bool
  | [], _ => true
  | _ :: _, [] => false
  | p :: ps, x :: xs => x = p && startsWithB ps xs

/-- Whether the first list occurs contiguously inside the second. -/
def isInfixB (needle : List Char) : List Char → Bool
  | [] => needle.isEmpty
  | x :: rest => startsWithB needle (x :: rest) || isInfixB needle rest

/-- Whether the first list is a trailing segment of the second. -/
def endsWithB (suf l : List Char) : Bool :=
  startsWithB suf.reverse l.reverse

/-- Python substring containment, `needle in hay`. -/
def substrB (needle hay : String) : Bool :=
  isInfixB needle.data hay.data

/-- Python `str.split(sep)` for a single-character separator, on character
lists: empty input gives one empty field, and adjacent separators produce
empty fields. -/
def splitChar (sep : Char) : List Char → List (List Char)
  | [] => [[]]
  | c :: rest =>
    if c = sep then [] :: splitChar sep rest
    else
      match splitChar sep rest with
      | h :: t => (c :: h) :: t
      | [] => [[c]]

/-- Python `s.split(sep)` for a single-character separator. -/
def pySplit (s : String) (sep : Char) : List String :=
  (splitChar sep s.data).map (fun l => ⟨l⟩)

/-- Helper for Python `str.split()`: split a character list into maximal
whitespace-free words, `acc` being the (reversed) word currently open. -/
def wordsAux : List Char → List Char → List (List Char)
  | [], acc => if acc.isEmpty then [] else [acc.reverse]
  | c :: cs, acc =>
    if pyWhite c then
      if acc.isEmpty then wordsAux cs [] else acc.reverse :: wordsAux cs []
    else wordsAux cs (c :: acc)

/-- Python `str.split()` with no separator: runs of whitespace delimit
tokens, and no empty tokens are produced. -/
def pySplitWs (s : String) : List String :=
  (wordsAux s.data []).map (fun l => ⟨l⟩)

/-- Numeric value of an ASCII digit character. -/
def digitVal (c : Char) : Nat :=
  c.toNat - '0'.toNat

/-- Digit-run parser for Python `int()`: the previous character was a digit,
`acc` is the value so far; single underscores are allowed between digits. -/
def pdGo : List Char → Nat → Option Nat
  | [], acc => some acc
  | c :: rest, acc =>
    if c.isDigit then pdGo rest (acc * 10 + digitVal c)
    else if c = '_' then
      match rest with
      | c2 :: rest2 =>
        if c2.isDigit then pdGo rest2 (acc * 10 + digitVal c2) else none
      | [] => none
    else none

/-- Nonempty digit sequence with optional single underscores between digits,
as accepted by Python `int()` after sign stripping. -/
def parseDigitsU : List Char → Option Nat
  | [] => none
  | c :: rest => if c.isDigit then pdGo rest (digitVal c) else none

/-- Python `int(s)` for ASCII text: surrounding whitespace is stripped, one
optional sign, then digits; any other input raises `ValueError` (here:
`none`). -/
def pyInt (s : String) : Option Int :=
  match pyStripList s.data with
  | '+' :: rest => (parseDigitsU rest).map Int.ofNat
  | '-' :: rest => (parseDigitsU rest).map (fun n => -(Int.ofNat n))
  | t => (parseDigitsU t).map Int.ofNat

/-- Value of a digit run, as computed by `int()` on a known-good digit
string (used for regex groups, which are always plain digit runs). -/
def digitsToNat (l : List Char) : Nat :=
  l.foldl (fun a c => a * 10 + digitVal c) 0

/-- Python regex `\w` (ASCII): letters, digits, underscore. -/
def isWordChar (c : Char) : Bool :=
  c.isAlphanum || c = '_'

/-- Match a literal at the head of the input, returning the rest. -/
def matchLit : List Char → List Char → Option (List Char)
  | [], l => some l
  | _ :: _, [] => none
  | p :: ps, x :: xs => if x = p then matchLit ps xs else none

/-- Attempt of the pattern `lit(\w+):(\d+)` at the head of the input
(the shape of `Gres=gpu:(\w+):(\d+)`); returns the two groups.  Because
`:` is not a word character the greedy `\w+` group is forced to be the
maximal word run, and `\d+` the maximal digit run. -/
def reTypedAt (lit : List Char) (l : List Char) : Option (List Char × List Char) :=
  match matchLit lit l with
  | none => none
  | some rest =>
    let w := rest.takeWhile isWordChar
    if w.isEmpty then none
    else
      match rest.dropWhile isWordChar with
      | ':' :: rest3 =>
        let d := rest3.takeWhile Char.isDigit
        if d.isEmpty then none else some (w, d)
      | _ => none

/-- Attempt of the pattern `lit(\d+)` at the head of the input (the shape of
`Gres=gpu:(\d+)`); returns the digit group. -/
def reUntypedAt (lit : List Char) (l : List Char) : Option (List Char) :=
  match matchLit lit l with
  | none => none
  | some rest =>
    let d := rest.takeWhile Char.isDigit
    if d.isEmpty then none else some d

/-- Python `re.search`: try the pattern at every position, left to right,
and return the leftmost match. -/
def reSearch {α : Type} (m : List Char → Option α) : List Char → Option α
  | [] => m []
  | c :: rest =>
    match m (c :: rest) with
    | some r => some r
    | none => reSearch m rest

/-! ## CommandResult (myjob/transport/ssh.py, dataclass CommandResult) -/

/-- Result of a remote or local command execution. -/
structure CommandResult where
  stdout : String
  stderr : String
  return_code : Int
  ok : Bool
deriving DecidableEq

/-! ## Local job ids (slurmit/core/job_id.py) -/

/-- Lowercase hex character of a nibble value. -/
def hexDigitChar (n : Nat) : Char :=
  if n < 10 then Char.ofNat ('0'.toNat + n) else Char.ofNat ('a'.toNat + (n - 10))

/-- Two lowercase hex characters of one byte. -/
def hexByte (b : Nat) : List Char :=
  [hexDigitChar (b / 16), hexDigitChar (b % 16)]

/-- Model of `hashlib.sha256(...).hexdigest()`: the lowercase hex encoding
of the 32-byte digest.  The digest bytes are a parameter, since the hash
itself is opaque to the claims. -/
def hexdigest (digest : List Nat) : String :=
  ⟨(digest.map hexByte).flatten⟩

/-- `generate_job_id`, parameterised over the sha256 digest bytes of the
timestamp-and-UUID string: the first 6 characters of the hex digest. -/
def generate_job_id (digest : List Nat) : String :=
  ⟨(hexdigest digest).data.take 6⟩

/-- `is_valid_job_id`: exactly 6 characters, all of them (after lowering)
hexadecimal digits. -/
def is_valid_job_id (job_id : String) : Bool :=
  if job_id.length ≠ 6 then false
  else (lowerStr job_id).data.all (fun c => "0123456789abcdef".data.contains c)

/-! ## Node monitor parsing (myjob/monitor/nodes.py) -/

/-- Field `i` of the `/`-separated CPU-state tuple (empty if absent). -/
def cpuField (s : String) (i : Nat) : String :=
  (pySplit s '/').getD i ""

/-- `NodeMonitor._parse_cpu_state`: long form `a/i/o/t` (four or more
fields) yields `(a, t)`; short form `u/t` yields `(u, t)`; any other shape
or a `ValueError` from `int()` yields `(0, 0)`. -/
def parse_cpu_state (s : String) : Int × Int :=
  if 4 ≤ (pySplit s '/').length then
    match pyInt (cpuField s 0), pyInt (cpuField s 3) with
    | some a, some t => (a, t)
    | _, _ => (0, 0)
  else if (pySplit s '/').length = 2 then
    match pyInt (cpuField s 0), pyInt (cpuField s 1) with
    | some u, some t => (u, t)
    | _, _ => (0, 0)
  else (0, 0)

/-- GPU information for a node (dataclass GPUInfo).  Counts are `Int`
because `free` is computed by subtraction and the source never clamps it. -/
structure GPUInfo where
  gpu_type : String
  total : Int
  used : Int
  free : Int
deriving DecidableEq

/-- Leftmost match of `lit(\w+):(\d+)` in the text, groups converted as the
source does (`group(1)` kept as text, `int(group(2))`). -/
def find_typed (lit : String) (text : String) : Option (String × Nat) :=
  (reSearch (reTypedAt lit.data) text.data).map (fun p => (⟨p.1⟩, digitsToNat p.2))

/-- Leftmost match of `lit(\d+)` in the text, group converted by `int`. -/
def find_untyped (lit : String) (text : String) : Option Nat :=
  (reSearch (reUntypedAt lit.data) text.data).map digitsToNat

/-- Used count in the typed branch of `_get_gpu_info`: group 2 of
`GresUsed=gpu:(\w+):(\d+)` when it matches, else 0. -/
def typedUsed (output : String) : Nat :=
  match find_typed "GresUsed=gpu:" output with
  | some p => p.2
  | none => 0

/-- Used count in the untyped branch of `_get_gpu_info`: group 1 of
`GresUsed=gpu:(\d+)` when it matches, else 0. -/
def untypedUsed (output : String) : Nat :=
  (find_untyped "GresUsed=gpu:" output).getD 0

/-- Regex core of `NodeMonitor._get_gpu_info`: first the typed pattern
`Gres=gpu:(\w+):(\d+)` (with `GresUsed=gpu:(\w+):(\d+)` for the used
count), then the untyped fallback `Gres=gpu:(\d+)` (with
`GresUsed=gpu:(\d+)`, type defaulting to "gpu"), else no GPU data. -/
def get_gpu_info_parse (output : String) : Option GPUInfo :=
  match find_typed "Gres=gpu:" output with
  | some (ty, total) =>
    some ⟨ty, (total : Int), (typedUsed output : Int),
      (total : Int) - (typedUsed output : Int)⟩
  | none =>
    match find_untyped "Gres=gpu:" output with
    | some total =>
      some ⟨"gpu", (total : Int), (untypedUsed output : Int),
        (total : Int) - (untypedUsed output : Int)⟩
    | none => none

/-- `NodeMonitor._get_gpu_info` applied to the `scontrol show node` command
result: a failed command or empty output yields no GPU data. -/
def get_gpu_info (result : CommandResult) : Option GPUInfo :=
  if !result.ok || result.stdout == "" then none
  else get_gpu_info_parse result.stdout

/-! ## SSH connection retry (myjob/transport/ssh.py, SSHClient.connect) -/

/-- Error classes produced by the lowered-text matching in
`SSHClient.connect`. -/
inductive ErrClass
  | refused
  | auth_failed
  | timed_out
  | host_not_found
  | permission_denied
  | generic
deriving DecidableEq

/-- Classification of a connection failure by substring matching on the
lowered error text, in the source's order. -/
def classify_error (e : String) : ErrClass :=
  let s := lowerStr e
  if substrB "connection refused" s then .refused
  else if substrB "authentication" s || substrB "auth" s then .auth_failed
  else if substrB "timed out" s || substrB "timeout" s then .timed_out
  else if substrB "name or service not known" s || substrB "nodename" s then .host_not_found
  else if substrB "permission denied" s then .permission_denied
  else .generic

/-- Classes that `connect` raises immediately, without another attempt. -/
def nonretryable (c : ErrClass) : Bool :=
  match c with
  | .auth_failed => true
  | .host_not_found => true
  | .permission_denied => true
  | _ => false

/-- Outcome of the connection loop. -/
inductive ConnectOutcome
  | connected (attempt : Nat)
  | terminal (cls : ErrClass) (attempt : Nat)
  | exhausted
deriving DecidableEq

/-- The `for attempt in range(retries)` loop of `SSHClient.connect`.
`attempts i` is the outcome of attempt `i` (`none` means the connection
opened, `some e` a failure with error text `e`); the returned list records
the `time.sleep(2 ** attempt)` backoff calls, in seconds. -/
def connect_go (attempts : Nat → Option String) (retries : Nat) :
    Nat → Nat → ConnectOutcome × List Nat
  | 0, _ => (.exhausted, [])
  | fuel + 1, i =>
    match attempts i with
    | none => (.connected i, [])
    | some e =>
      let c := classify_error e
      if nonretryable c then (.terminal c i, [])
      else if i + 1 < retries then
        let r := connect_go attempts retries fuel (i + 1)
        (r.1, 2 ^ i :: r.2)
      else connect_go attempts retries fuel (i + 1)

/-- `SSHClient.connect` with a given retry budget. -/
def ssh_connect (attempts : Nat → Option String) (retries : Nat) :
    ConnectOutcome × List Nat :=
  connect_go attempts retries retries 0

/-! ## Job status (slurmit/monitor/status.py) -/

/-- The closed SLURM job-state enum. -/
inductive JobState
  | PENDING
  | RUNNING
  | COMPLETING
  | COMPLETED
  | FAILED
  | CANCELLED
  | TIMEOUT
  | NODE_FAIL
  | PREEMPTED
  | OUT_OF_MEMORY
  | UNKNOWN
deriving DecidableEq

/-- `JobState.from_string`: uppercase and strip, then the enum value, with
`UNKNOWN` for anything unrecognized. -/
def jobState_from_string (s : String) : JobState :=
  let t := pyStrip (upperStr s)
  if t = "PENDING" then .PENDING
  else if t = "RUNNING" then .RUNNING
  else if t = "COMPLETING" then .COMPLETING
  else if t = "COMPLETED" then .COMPLETED
  else if t = "FAILED" then .FAILED
  else if t = "CANCELLED" then .CANCELLED
  else if t = "TIMEOUT" then .TIMEOUT
  else if t = "NODE_FAIL" then .NODE_FAIL
  else if t = "PREEMPTED" then .PREEMPTED
  else if t = "OUT_OF_MEMORY" then .OUT_OF_MEMORY
  else .UNKNOWN

/-- Status information for a SLURM job (dataclass JobStatus). -/
structure JobStatusRec where
  job_id : String
  name : String
  state : JobState
  partition : String
  node : Option String
  elapsed : String
  start_time : Option String
  end_time : Option String
  exit_code : Option String
deriving DecidableEq

/-- `StatusMonitor._get_from_squeue`: parse the live-queue line
(sentinel "N/A" for a missing start time). -/
def get_from_squeue (r : CommandResult) : Option JobStatusRec :=
  if !r.ok || pyStrip r.stdout == "" then none
  else
    let parts := pySplit (pyStrip r.stdout) '|'
    if parts.length < 7 then none
    else
      some
        { job_id := parts.getD 0 ""
          name := parts.getD 1 ""
          state := jobState_from_string (parts.getD 2 "")
          partition := parts.getD 3 ""
          node := if parts.getD 4 "" ≠ "" then some (parts.getD 4 "") else none
          elapsed := parts.getD 5 ""
          start_time := if parts.getD 6 "" ≠ "N/A" then some (parts.getD 6 "") else none
          end_time := none
          exit_code := none }

/-- `StatusMonitor._get_from_sacct`: parse the first accounting line only
(subsequent lines are job steps; sentinel "Unknown" for missing times). -/
def get_from_sacct (r : CommandResult) : Option JobStatusRec :=
  if !r.ok || pyStrip r.stdout == "" then none
  else
    match pySplit (pyStrip r.stdout) '\n' with
    | [] => none
    | l0 :: _ =>
      let parts := pySplit l0 '|'
      if parts.length < 9 then none
      else
        some
          { job_id := parts.getD 0 ""
            name := parts.getD 1 ""
            state := jobState_from_string (parts.getD 2 "")
            partition := parts.getD 3 ""
            node := if parts.getD 4 "" ≠ "" then some (parts.getD 4 "") else none
            elapsed := parts.getD 5 ""
            start_time := if parts.getD 6 "" ≠ "Unknown" then some (parts.getD 6 "") else none
            end_time := if parts.getD 7 "" ≠ "Unknown" then some (parts.getD 7 "") else none
            exit_code := some (parts.getD 8 "") }

/-- `StatusMonitor.get_status` over the two command results: squeue first,
sacct only if squeue yields nothing.  The boolean records whether the
sacct query was issued at all. -/
def get_status (squeue_result sacct_result : CommandResult) :
    Option JobStatusRec × Bool :=
  match get_from_squeue squeue_result with
  | some st => (some st, false)
  | none => (get_from_sacct sacct_result, true)

/-! ## Submission (slurmit/backend/slurm.py, SlurmBackend.submit) -/

/-- Id-parsing core of `SlurmBackend.submit`: a non-zero exit or output
without the sentinel phrase raises (here: `Except.error`); otherwise the
job id is the final whitespace-separated token of the stripped stdout.
The remaining `SubmitResult` fields are pass-through of the inputs. -/
def submit_parse (result : CommandResult) : Except String String :=
  if !result.ok then .error ("Failed to submit job: " ++ result.stderr)
  else
    let output := pyStrip result.stdout
    if !substrB "Submitted batch job" output then
      .error ("Unexpected sbatch output: " ++ output)
    else .ok ((pySplitWs output).getLastD "")

/-! ## Wait-for-completion polling (slurmit/cli/commands/run.py) -/

/-- One polling cycle's observation: the squeue and sacct command results,
plus whether the status query raised an exception. -/
structure PollObs where
  squeue_res : CommandResult
  sacct_res : CommandResult
  raised : Bool
deriving DecidableEq

/-- Whether the squeue query of a polling cycle yielded a state string. -/
def squeue_yields (o : PollObs) : Bool :=
  (o.squeue_res.return_code == 0) && (pyStrip o.squeue_res.stdout != "")

/-- Whether the sacct query of a polling cycle yielded a state string. -/
def sacct_yields (o : PollObs) : Bool :=
  (o.sacct_res.return_code == 0) && (pyStrip o.sacct_res.stdout != "")

/-- State computed by one cycle of `wait_for_completion`: squeue first,
then sacct's first line, else `UNKNOWN`; an exception also yields
`UNKNOWN`. -/
def poll_state (o : PollObs) : JobState :=
  if o.raised then .UNKNOWN
  else if squeue_yields o then jobState_from_string (pyStrip o.squeue_res.stdout)
  else if sacct_yields o then
    jobState_from_string ((pySplit (pyStrip o.sacct_res.stdout) '\n').getD 0 "")
  else .UNKNOWN

/-- The terminal states that stop the polling loop. -/
def is_terminal (s : JobState) : Bool :=
  match s with
  | .COMPLETED => true
  | .FAILED => true
  | .CANCELLED => true
  | .TIMEOUT => true
  | .NODE_FAIL => true
  | .OUT_OF_MEMORY => true
  | _ => false

/-- Outcome of running the polling loop for a bounded number of cycles. -/
inductive WaitOutcome
  | finished (final : JobState) (cycles : Nat)
  | still_waiting (last : Option JobState)
deriving DecidableEq

/-- The `while True` loop of `wait_for_completion`, fuel-bounded: each
cycle computes the state from `obs i`, records it as the last state, and
breaks exactly on a terminal state. -/
def wait_go (obs : Nat → PollObs) : Nat → Nat → Option JobState → WaitOutcome
  | 0, _, last => .still_waiting last
  | fuel + 1, i, _last =>
    let st := poll_state (obs i)
    if is_terminal st then .finished st (i + 1)
    else wait_go obs fuel (i + 1) (some st)

/-- `wait_for_completion` observed for `fuel` polling cycles. -/
def wait_for_completion (obs : Nat → PollObs) (fuel : Nat) : WaitOutcome :=
  wait_go obs fuel 0 none

/-! ## Job record store (myjob/storage/job_store.py) -/

/-- The durable job record (myjob/core/models.py, JobRecord). -/
structure JobRecord where
  local_id : String
  slurm_job_id : Option String
  name : String
  config_file : Option String
  host : String
  remote_dir : String
  log_dir : String
  status : String
  submitted_at : String
  git_commit : Option String
  git_branch : Option String
  command : String
deriving DecidableEq

/-- The on-disk store: one entry per record file, as (file stem, parsed
record); the file name is the stem followed by ".json". -/
abbrev JobStore := List (String × JobRecord)

/-- Whether a file name matches the glob pattern `p ++ "*.json"`, for a
pattern head free of glob metacharacters: the name starts with `p` and the
remainder ends with ".json". -/
def glob_match_pfx (p : String) (fileName : String) : Bool :=
  startsWithB p.data fileName.data
    && endsWithB ".json".data (fileName.data.drop p.data.length)

/-- The store entries whose file names match the glob `p ++ "*.json"`. -/
def pfx_matches (store : JobStore) (p : String) : JobStore :=
  List.filter (fun e => glob_match_pfx p (e.1 ++ ".json")) store

/-- Result of `find_job_by_prefix`: a usage error for a too-short pattern,
no match, the unique matching record, or a distinct ambiguity error. -/
inductive FindResult
  | usage_error (msg : String)
  | not_found
  | found (r : JobRecord)
  | ambiguous (msg : String)
deriving DecidableEq

/-- `find_job_by_prefix`: reject patterns shorter than 2 characters, then
glob the store; zero matches is "not found", one match is that record, and
more than one raises the ambiguity error. -/
def find_job_by_pfx (store : JobStore) (p : String) : FindResult :=
  if p.length < 2 then .usage_error "Job name prefix must be at least 2 characters"
  else
    match pfx_matches store p with
    | [] => .not_found
    | [e] => .found e.2
    | _ :: _ :: _ => .ambiguous ("Ambiguous job name prefix: " ++ p)

/-- A filesystem operation issued by the store. -/
inductive FsOp
  | write (path : String) (content : String)
  | rename (src : String) (dst : String)
deriving DecidableEq

/-- Replace every occurrence of one character by another (Python
`str.replace` for a single-character pattern). -/
def replaceChar (a b : Char) (l : List Char) : List Char :=
  l.map (fun c => if c = a then b else c)

/-- Filesystem-safe encoding of a job name (`get_job_file`): slashes and
backslashes become underscores. -/
def safe_name (name : String) : String :=
  ⟨replaceChar '\\' '_' (replaceChar '/' '_' name.data)⟩

/-- `get_job_file`, with the home directory passed explicitly (the source
computes it via `Path.home()`). -/
def get_job_file (home : String) (name : String) : String :=
  home ++ "/.myjob/jobs/" ++ safe_name name ++ ".json"

/-- Quoted JSON string (escaping elided; the content is irrelevant to the
write-pattern claims). -/
def jstr (s : String) : String := "\"" ++ s ++ "\""

/-- JSON rendering of an optional string field. -/
def jopt (o : Option String) : String :=
  match o with
  | none => "null"
  | some s => jstr s

/-- Serialization model of `json.dump(record.model_dump(), f, indent=2)`:
one JSON object holding every record field (layout abstracted to a single
line). -/
def record_json (r : JobRecord) : String :=
  "\x7b\"local_id\": " ++ jstr r.local_id
    ++ ", \"slurm_job_id\": " ++ jopt r.slurm_job_id
    ++ ", \"name\": " ++ jstr r.name
    ++ ", \"config_file\": " ++ jopt r.config_file
    ++ ", \"host\": " ++ jstr r.host
    ++ ", \"remote_dir\": " ++ jstr r.remote_dir
    ++ ", \"log_dir\": " ++ jstr r.log_dir
    ++ ", \"status\": " ++ jstr r.status
    ++ ", \"submitted_at\": " ++ jstr r.submitted_at
    ++ ", \"git_commit\": " ++ jopt r.git_commit
    ++ ", \"git_branch\": " ++ jopt r.git_branch
    ++ ", \"command\": " ++ jstr r.command
    ++ "\x7d"

/-- The trace of filesystem operations performed by `save_job`: a single
direct write of the serialized record to the record file. -/
def save_job_ops (home : String) (r : JobRecord) : List FsOp :=
  [FsOp.write (get_job_file home r.name) (record_json r)]

/-- Modelled from the spec: an operation trace is an atomic single-file
replacement of `target` when the full content is written to a distinct
temporary path and that path is then renamed over `target`. -/
def spec_atomic_replace (ops : List FsOp) (target : String) : Bool :=
  match ops with
  | [FsOp.write tmp _, FsOp.rename src dst] =>
    (tmp != target) && (src == tmp) && (dst == target)
  | _ => false

/-! ## Concrete inputs used by witnesses and counterexamples -/

/-- A sample job record. -/
def sampleRecord : JobRecord :=
  { local_id := "a1b2c3"
    slurm_job_id := some "88421"
    name := "train-model"
    config_file := none
    host := "cluster.example.org"
    remote_dir := "/scratch/u/train-model"
    log_dir := "/scratch/u/train-model/logs"
    status := "SUBMITTED"
    submitted_at := "2026-10-12T00:00:00"
    git_commit := none
    git_branch := none
    command := "python train.py" }

/-- A second sample record, for ambiguity scenarios. -/
def sampleRecord2 : JobRecord :=
  { sampleRecord with local_id := "d4e5f6", name := "train-model-v2" }

/-- A live-queue command result for a running job. -/
def squeueFixture : CommandResult :=
  { stdout := "88421|train|RUNNING|gpu|node01|5:00|N/A"
    stderr := "", return_code := 0, ok := true }

/-- An accounting command result for the same job id, completed. -/
def sacctFixture : CommandResult :=
  { stdout := "88421|train|COMPLETED|gpu|node01|5:00|s|e|0:0"
    stderr := "", return_code := 0, ok := true }

/-- The record parsed from `squeueFixture`. -/
def squeueParsed : JobStatusRec :=
  { job_id := "88421", name := "train", state := JobState.RUNNING
    partition := "gpu", node := some "node01", elapsed := "5:00"
    start_time := none, end_time := none, exit_code := none }

/-- The record parsed from `sacctFixture`. -/
def sacctParsed : JobStatusRec :=
  { job_id := "88421", name := "train", state := JobState.COMPLETED
    partition := "gpu", node := some "node01", elapsed := "5:00"
    start_time := some "s", end_time := some "e", exit_code := some "0:0" }

/-- Observation sequence whose first cycle reports RUNNING and whose later
cycles fail both status queries. -/
def obsThenFail : Nat → PollObs :=
  fun i =>
    if i = 0 then
      { squeue_res := { stdout := "RUNNING", stderr := "", return_code := 0, ok := true }
        sacct_res := { stdout := "", stderr := "", return_code := 0, ok := true }
        raised := false }
    else
      { squeue_res := { stdout := "", stderr := "", return_code := 1, ok := false }
        sacct_res := { stdout := "", stderr := "", return_code := 1, ok := false }
        raised := false }

/-! ## Helper lemmas -/

theorem hexByte_length (b : Nat) : (hexByte b).length = 2 := rfl

theorem hexBytes_flatten_length (digest : List Nat) :
    ((digest.map hexByte).flatten).length = 2 * digest.length := by
  induction digest with
  | nil => rfl
  | cons b bs ih =>
    simp only [List.map_cons, List.flatten_cons, List.length_append, ih,
      List.length_cons, hexByte_length]
    omega

theorem mem_hexBytes_flatten {digest : List Nat} {c : Char}
    (h : c ∈ (digest.map hexByte).flatten) :
    ∃ b ∈ digest, c = hexDigitChar (b / 16) ∨ c = hexDigitChar (b % 16) := by
  rw [List.mem_flatten] at h
  obtain ⟨chunk, hchunk, hc⟩ := h
  rw [List.mem_map] at hchunk
  obtain ⟨b, hb, rfl⟩ := hchunk
  refine ⟨b, hb, ?_⟩
  simpa [hexByte] using hc

theorem hexDigitChar_mem_hex {n : Nat} (h : n < 16) :
    "0123456789abcdef".data.contains (hexDigitChar n) = true := by
  interval_cases n <;> decide

theorem hexDigitChar_toLower {n : Nat} (h : n < 16) :
    (hexDigitChar n).toLower = hexDigitChar n := by
  interval_cases n <;> decide

/-! ## C10 -/

/-- C10: every string returned by `generate_job_id` satisfies
`is_valid_job_id` — it is exactly 6 characters, all lowercase hex digits —
for every possible 32-byte sha256 digest of the timestamp-and-UUID
input. -/
theorem C10_generate_job_id_valid (digest : List Nat) (hlen : digest.length = 32)
    (hb : ∀ b ∈ digest, b < 256) :
    is_valid_job_id (generate_job_id digest) = true := by
  have hflatlen : ((digest.map hexByte).flatten).length = 64 := by
    rw [hexBytes_flatten_length, hlen]
  have hid : (generate_job_id digest).length = 6 := by
    show (((digest.map hexByte).flatten).take 6).length = 6
    rw [List.length_take, hflatlen]
    decide
  unfold is_valid_job_id
  rw [if_neg (by rw [hid]; omega)]
  apply List.all_eq_true.mpr
  intro c hc
  have hc' : c ∈ (((digest.map hexByte).flatten).take 6).map Char.toLower := hc
  rw [List.mem_map] at hc'
  obtain ⟨c0, hc0, rfl⟩ := hc'
  have hc0' : c0 ∈ (digest.map hexByte).flatten := List.take_subset _ _ hc0
  obtain ⟨b, hbmem, hcase⟩ := mem_hexBytes_flatten hc0'
  have hb256 := hb b hbmem
  have h1 : b / 16 < 16 := by omega
  have h2 : b % 16 < 16 := by omega
  rcases hcase with rfl | rfl
  · rw [hexDigitChar_toLower h1]
    exact hexDigitChar_mem_hex h1
  · rw [hexDigitChar_toLower h2]
    exact hexDigitChar_mem_hex h2

theorem C10_witness :
    (List.replicate 32 0).length = 32 ∧ (∀ b ∈ List.replicate 32 0, b < 256) ∧
    is_valid_job_id (generate_job_id (List.replicate 32 0)) = true :=
  ⟨by decide, by decide, C10_generate_job_id_valid _ (by decide) (by decide)⟩

/-! ## C8 -/

/-- C8: a long-form slash tuple (four or more fields) parses to the first
and fourth fields, a two-field tuple parses to both fields, and any other
shape — wrong field count or a field `int()` rejects — parses to (0, 0);
the function is total, so nothing is raised. -/
theorem C8_parse_cpu_state (s : String) :
    (∀ a t : Int, 4 ≤ (pySplit s '/').length →
      pyInt (cpuField s 0) = some a → pyInt (cpuField s 3) = some t →
      parse_cpu_state s = (a, t)) ∧
    (∀ u t : Int, (pySplit s '/').length = 2 →
      pyInt (cpuField s 0) = some u → pyInt (cpuField s 1) = some t →
      parse_cpu_state s = (u, t)) ∧
    ((pySplit s '/').length ≠ 2 → (pySplit s '/').length < 4 →
      parse_cpu_state s = (0, 0)) ∧
    (4 ≤ (pySplit s '/').length →
      pyInt (cpuField s 0) = none ∨ pyInt (cpuField s 3) = none →
      parse_cpu_state s = (0, 0)) ∧
    ((pySplit s '/').length = 2 →
      pyInt (cpuField s 0) = none ∨ pyInt (cpuField s 1) = none →
      parse_cpu_state s = (0, 0)) := by
  refine ⟨?_, ?_, ?_, ?_, ?_⟩
  · intro a t h4 h0 h3
    unfold parse_cpu_state
    rw [if_pos h4, h0, h3]
  · intro u t h2 h0 h1
    unfold parse_cpu_state
    rw [if_neg (by omega), if_pos h2, h0, h1]
  · intro h2 h4
    unfold parse_cpu_state
    rw [if_neg (by omega), if_neg h2]
  · intro h4 hcase
    unfold parse_cpu_state
    rw [if_pos h4]
    rcases hcase with h | h
    · rw [h]
    · rw [h]
      cases hx : pyInt (cpuField s 0) <;> rfl
  · intro h2 hcase
    unfold parse_cpu_state
    rw [if_neg (by omega), if_pos h2]
    rcases hcase with h | h
    · rw [h]
    · rw [h]
      cases hx : pyInt (cpuField s 0) <;> rfl

theorem C8_witness :
    4 ≤ (pySplit "24/40/0/64" '/').length ∧
    parse_cpu_state "24/40/0/64" = (24, 64) ∧
    (pySplit "4/8" '/').length = 2 ∧
    parse_cpu_state "4/8" = (4, 8) ∧
    parse_cpu_state "a/b" = (0, 0) :=
  ⟨by decide,
   (C8_parse_cpu_state "24/40/0/64").1 24 64 (by decide) (by decide) (by decide),
   by decide,
   (C8_parse_cpu_state "4/8").2.1 4 8 (by decide) (by decide) (by decide),
   (C8_parse_cpu_state "a/b").2.2.2.2 (by decide) (Or.inl (by decide))⟩

/-! ## C2 -/

/-- C2 counterexample: at a concrete record, `save_job` issues a single
direct write of the record file; the trace is not the write-temp-then-
rename pattern the claim requires. -/
theorem C2_counterexample :
    spec_atomic_replace (save_job_ops "/home/user" sampleRecord)
      (get_job_file "/home/user" sampleRecord.name) = false ∧
    save_job_ops "/home/user" sampleRecord =
      [FsOp.write (get_job_file "/home/user" sampleRecord.name)
        (record_json sampleRecord)] :=
  ⟨rfl, rfl⟩

/-- C2 (amended): every filesystem operation `save_job` performs is the
single direct write of the serialized record to the final record-file
path — there is no temporary path and no rename step. -/
theorem C2_save_job_direct_write (home : String) (r : JobRecord) (op : FsOp)
    (h : op ∈ save_job_ops home r) :
    op = FsOp.write (get_job_file home r.name) (record_json r) := by
  simpa [save_job_ops] using h

theorem C2_witness :
    FsOp.write (get_job_file "/home/u" sampleRecord.name) (record_json sampleRecord)
      ∈ save_job_ops "/home/u" sampleRecord ∧
    FsOp.write (get_job_file "/home/u" sampleRecord.name) (record_json sampleRecord)
      = FsOp.write (get_job_file "/home/u" sampleRecord.name) (record_json sampleRecord) :=
  ⟨by simp [save_job_ops],
   C2_save_job_direct_write "/home/u" sampleRecord _ (by simp [save_job_ops])⟩

/-! ## C5 -/

/-- C5: `get_status` consults the live-queue parser first and issues the
accounting query only when the live queue yields nothing; hence a job id
present in both sources resolves to the live-queue record. -/
theorem C5_get_status_squeue_first (sq sa : CommandResult) :
    (∀ st, get_from_squeue sq = some st → get_status sq sa = (some st, false)) ∧
    (get_from_squeue sq = none → get_status sq sa = (get_from_sacct sa, true)) ∧
    (∀ st st2, get_from_squeue sq = some st → get_from_sacct sa = some st2 →
      (get_status sq sa).1 = some st) := by
  refine ⟨?_, ?_, ?_⟩
  · intro st h
    unfold get_status
    rw [h]
  · intro h
    unfold get_status
    rw [h]
  · intro st st2 h _
    unfold get_status
    rw [h]

theorem C5_witness :
    get_from_squeue squeueFixture = some squeueParsed ∧
    get_from_sacct sacctFixture = some sacctParsed ∧
    squeueParsed.state ≠ sacctParsed.state ∧
    (get_status squeueFixture sacctFixture).1 = some squeueParsed :=
  ⟨by decide, by decide, by decide,
   (C5_get_status_squeue_first squeueFixture sacctFixture).2.2 squeueParsed sacctParsed
     (by decide) (by decide)⟩

/-! ## C7 -/

/-- C7 counterexample: after observing RUNNING, a cycle whose status
queries both fail forces the tracked state to UNKNOWN — it is not left at
the last known value RUNNING (though polling does continue). -/
theorem C7_counterexample :
    poll_state (obsThenFail 0) = JobState.RUNNING ∧
    poll_state (obsThenFail 1) = JobState.UNKNOWN ∧
    wait_for_completion obsThenFail 2 =
      WaitOutcome.still_waiting (some JobState.UNKNOWN) :=
  ⟨rfl, rfl, rfl⟩

/-- C7 (amended): a polling cycle whose status query raises, or whose
squeue and sacct queries both yield nothing, sets the cycle state to
UNKNOWN (overwriting the tracked value); UNKNOWN is not terminal, so such
a cycle never stops the loop; and the loop stops exactly when the observed
state is terminal — breaking immediately on a terminal state and
continuing otherwise. -/
theorem C7_wait_loop (obs : Nat → PollObs) (fuel i : Nat) (last : Option JobState)
    (o : PollObs) :
    (o.raised = true → poll_state o = JobState.UNKNOWN) ∧
    (squeue_yields o = false → sacct_yields o = false →
      poll_state o = JobState.UNKNOWN) ∧
    is_terminal JobState.UNKNOWN = false ∧
    (is_terminal (poll_state (obs i)) = true →
      wait_go obs (fuel + 1) i last = .finished (poll_state (obs i)) (i + 1)) ∧
    (is_terminal (poll_state (obs i)) = false →
      wait_go obs (fuel + 1) i last = wait_go obs fuel (i + 1) (some (poll_state (obs i)))) := by
  refine ⟨?_, ?_, rfl, ?_, ?_⟩
  · intro h
    unfold poll_state
    rw [if_pos h]
  · intro h1 h2
    unfold poll_state
    rcases hr : o.raised with _ | _
    · rw [if_neg (by simp [hr]), if_neg (by simp [h1]), if_neg (by simp [h2])]
    · rw [if_pos (by simp [hr])]
  · intro h
    show (if is_terminal (poll_state (obs i)) = true then _ else _) = _
    rw [if_pos h]
  · intro h
    show (if is_terminal (poll_state (obs i)) = true then _ else _) = _
    rw [if_neg (by simp [h])]

theorem C7_witness :
    (obsThenFail 1).raised = false ∧
    squeue_yields (obsThenFail 1) = false ∧
    sacct_yields (obsThenFail 1) = false ∧
    poll_state (obsThenFail 1) = JobState.UNKNOWN ∧
    wait_go obsThenFail 1 1 (some JobState.RUNNING) =
      wait_go obsThenFail 0 2 (some (poll_state (obsThenFail 1))) :=
  ⟨by decide, by decide, by decide,
   (C7_wait_loop obsThenFail 0 1 none (obsThenFail 1)).2.1 (by decide) (by decide),
   (C7_wait_loop obsThenFail 0 1 (some JobState.RUNNING) (obsThenFail 1)).2.2.2.2 (by decide)⟩

/-! ## C1 -/

/-- C1: `find_job_by_prefix` rejects a pattern shorter than the 2-character
minimum as a usage error; with a valid pattern, zero glob matches yield
"not found", exactly one yields that record, and two or more yield the
ambiguity error, which is distinct from "not found" and never silently
picks a record. -/
theorem C1_find_job_by_pfx_spec (store : JobStore) (p : String) :
    (p.length < 2 → ∃ msg, find_job_by_pfx store p = .usage_error msg) ∧
    (2 ≤ p.length → pfx_matches store p = [] →
      find_job_by_pfx store p = .not_found) ∧
    (2 ≤ p.length → ∀ e, pfx_matches store p = [e] →
      find_job_by_pfx store p = .found e.2) ∧
    (2 ≤ p.length → 2 ≤ (pfx_matches store p).length →
      (∃ msg, find_job_by_pfx store p = .ambiguous msg) ∧
      find_job_by_pfx store p ≠ .not_found ∧
      ∀ r, find_job_by_pfx store p ≠ .found r) := by
  refine ⟨?_, ?_, ?_, ?_⟩
  · intro h
    exact ⟨_, by unfold find_job_by_pfx; rw [if_pos h]⟩
  · intro h hm
    unfold find_job_by_pfx
    rw [if_neg (by omega), hm]
  · intro h e hm
    unfold find_job_by_pfx
    rw [if_neg (by omega), hm]
  · intro h hlen
    have hshape : ∃ e1 e2 rest, pfx_matches store p = e1 :: e2 :: rest := by
      rcases hm : pfx_matches store p with _ | ⟨e1, _ | ⟨e2, rest⟩⟩
      · rw [hm] at hlen; simp at hlen
      · rw [hm] at hlen; simp at hlen
      · exact ⟨e1, e2, rest, rfl⟩
    obtain ⟨e1, e2, rest, hm⟩ := hshape
    have heq : find_job_by_pfx store p = .ambiguous ("Ambiguous job name prefix: " ++ p) := by
      unfold find_job_by_pfx
      rw [if_neg (by omega), hm]
    refine ⟨⟨_, heq⟩, ?_, ?_⟩
    · rw [heq]; intro hcon; cases hcon
    · intro r
      rw [heq]; intro hcon; cases hcon

theorem C1_witness :
    ("t".length < 2 ∧
      find_job_by_pfx [("train-model", sampleRecord)] "t" =
        .usage_error "Job name prefix must be at least 2 characters") ∧
    (2 ≤ "zz".length ∧ pfx_matches [("train-model", sampleRecord)] "zz" = [] ∧
      find_job_by_pfx [("train-model", sampleRecord)] "zz" = .not_found) ∧
    (pfx_matches [("train-model", sampleRecord)] "tr" = [("train-model", sampleRecord)] ∧
      find_job_by_pfx [("train-model", sampleRecord)] "tr" = .found sampleRecord) ∧
    (2 ≤ (pfx_matches [("train-model", sampleRecord), ("train-model-v2", sampleRecord2)] "tr").length ∧
      find_job_by_pfx [("train-model", sampleRecord), ("train-model-v2", sampleRecord2)] "tr" ≠
        .not_found ∧
      ∀ r, find_job_by_pfx [("train-model", sampleRecord), ("train-model-v2", sampleRecord2)] "tr" ≠
        .found r) := by
  refine ⟨⟨by decide, by decide⟩, ⟨by decide, by decide, ?_⟩, ⟨by decide, ?_⟩, ⟨by decide, ?_, ?_⟩⟩
  · exact (C1_find_job_by_pfx_spec [("train-model", sampleRecord)] "zz").2.1
      (by decide) (by decide)
  · exact (C1_find_job_by_pfx_spec [("train-model", sampleRecord)] "tr").2.2.1
      (by decide) ("train-model", sampleRecord) (by decide)
  · exact ((C1_find_job_by_pfx_spec
      [("train-model", sampleRecord), ("train-model-v2", sampleRecord2)] "tr").2.2.2
      (by decide) (by decide)).2.1
  · exact ((C1_find_job_by_pfx_spec
      [("train-model", sampleRecord), ("train-model-v2", sampleRecord2)] "tr").2.2.2
      (by decide) (by decide)).2.2

/-! ## C6 -/

theorem startsWithB_mem {c : Char} :
    ∀ {n l : List Char}, startsWithB n l = true → c ∈ n → c ∈ l := by
  intro n
  induction n with
  | nil =>
    intro l _ hc
    cases hc
  | cons p ps ih =>
    intro l hs hc
    cases l with
    | nil => simp [startsWithB] at hs
    | cons x xs =>
      simp only [startsWithB, Bool.and_eq_true, decide_eq_true_eq] at hs
      rcases List.mem_cons.mp hc with rfl | hmem
      · rw [hs.1]
        exact List.mem_cons_self _ _
      · exact List.mem_cons_of_mem _ (ih hs.2 hmem)

theorem isInfixB_mem {c : Char} {n : List Char} :
    ∀ {l : List Char}, isInfixB n l = true → c ∈ n → c ∈ l := by
  intro l
  induction l with
  | nil =>
    intro h hc
    cases n with
    | nil => cases hc
    | cons a as => simp [isInfixB, List.isEmpty] at h
  | cons x xs ih =>
    intro h hc
    have h' : startsWithB n (x :: xs) = true ∨ isInfixB n xs = true := by
      simpa [isInfixB] using h
    rcases h' with h1 | h2
    · exact startsWithB_mem h1 hc
    · exact List.mem_cons_of_mem _ (ih h2 hc)

theorem wordsAux_ne_nil_acc :
    ∀ (l acc : List Char), acc ≠ [] → wordsAux l acc ≠ [] := by
  intro l
  induction l with
  | nil =>
    intro acc h
    simp [wordsAux, h]
  | cons x xs ih =>
    intro acc h
    cases hx : pyWhite x with
    | true =>
      simp only [wordsAux, hx, if_pos]
      have : acc.isEmpty = false := by simpa [List.isEmpty_iff] using h
      simp [this]
    | false =>
      simp only [wordsAux, hx]
      simp only [Bool.false_eq_true, if_neg]
      exact ih (x :: acc) (by simp)

theorem wordsAux_ne_nil_of_mem :
    ∀ (l : List Char) (c : Char), c ∈ l → pyWhite c = false → wordsAux l [] ≠ [] := by
  intro l
  induction l with
  | nil =>
    intro c hc
    cases hc
  | cons x xs ih =>
    intro c hc hw
    cases hx : pyWhite x with
    | true =>
      have hcx : c ∈ xs := by
        rcases List.mem_cons.mp hc with rfl | h
        · rw [hx] at hw; cases hw
        · exact h
      simp only [wordsAux, hx, if_pos, List.isEmpty_nil, if_true]
      exact ih c hcx hw
    | false =>
      simp only [wordsAux, hx, Bool.false_eq_true, if_neg]
      exact wordsAux_ne_nil_acc xs [x] (by simp)

theorem pySplitWs_ne_nil {s : String} {c : Char}
    (hc : c ∈ s.data) (hw : pyWhite c = false) : pySplitWs s ≠ [] := by
  unfold pySplitWs
  intro h
  rw [List.map_eq_nil_iff] at h
  exact wordsAux_ne_nil_of_mem _ c hc hw h

/-- C6: when the submit command succeeds and its stdout contains the
sentinel phrase, the parsed id is the final whitespace-separated token of
the (stripped) stdout, and the token list is nonempty so that token
exists; a non-zero exit, or stdout without the sentinel, yields an error
and no id. -/
theorem C6_submit_parse_spec (r : CommandResult) :
    (r.ok = true → substrB "Submitted batch job" (pyStrip r.stdout) = true →
      pySplitWs (pyStrip r.stdout) ≠ [] ∧
      submit_parse r = .ok ((pySplitWs (pyStrip r.stdout)).getLastD "")) ∧
    (r.ok = false → ∃ msg, submit_parse r = .error msg) ∧
    (r.ok = true → substrB "Submitted batch job" (pyStrip r.stdout) = false →
      ∃ msg, submit_parse r = .error msg) := by
  refine ⟨?_, ?_, ?_⟩
  · intro hok hsub
    constructor
    · have hS : 'S' ∈ (pyStrip r.stdout).data := isInfixB_mem hsub (by decide)
      exact pySplitWs_ne_nil hS (by decide)
    · unfold submit_parse
      simp [hok, hsub]
  · intro hok
    refine ⟨"Failed to submit job: " ++ r.stderr, ?_⟩
    unfold submit_parse
    simp [hok]
  · intro hok hsub
    refine ⟨"Unexpected sbatch output: " ++ pyStrip r.stdout, ?_⟩
    unfold submit_parse
    simp [hok, hsub]

theorem C6_witness :
    substrB "Submitted batch job"
      (pyStrip (CommandResult.mk "Submitted batch job 88421\n" "" 0 true).stdout) = true ∧
    submit_parse (CommandResult.mk "Submitted batch job 88421\n" "" 0 true) =
      Except.ok "88421" := by
  refine ⟨by decide, ?_⟩
  have h := (C6_submit_parse_spec (CommandResult.mk "Submitted batch job 88421\n" "" 0 true)).1
    rfl (by decide)
  exact h.2.trans (by rfl)

/-! ## C4 -/

theorem connect_go_skip (attempts : Nat → Option String) (retries : Nat) :
    ∀ (k i fuel : Nat), i + fuel = retries → k < fuel →
      (∀ j, j < k → ∃ ej, attempts (i + j) = some ej ∧
        nonretryable (classify_error ej) = false) →
      connect_go attempts retries fuel i =
        ((connect_go attempts retries (fuel - k) (i + k)).1,
          ((List.range k).map (fun j => 2 ^ (i + j))) ++
            (connect_go attempts retries (fuel - k) (i + k)).2) := by
  intro k
  induction k with
  | zero =>
    intro i fuel _ _ _
    simp
  | succ k ih =>
    intro i fuel hfuel hk hskip
    obtain ⟨fuel', rfl⟩ : ∃ f, fuel = f + 1 := ⟨fuel - 1, by omega⟩
    obtain ⟨e0, he0, hr0⟩ := hskip 0 (by omega)
    rw [Nat.add_zero] at he0
    have hlt : i + 1 < retries := by omega
    have hstep : connect_go attempts retries (fuel' + 1) i =
        ((connect_go attempts retries fuel' (i + 1)).1,
          2 ^ i :: (connect_go attempts retries fuel' (i + 1)).2) := by
      rw [connect_go, he0]
      simp [hr0, hlt]
    rw [hstep, ih (i + 1) fuel' (by omega) (by omega)
      (fun j hj => by
        obtain ⟨ej, hej, hrj⟩ := hskip (j + 1) (by omega)
        exact ⟨ej, by rw [← hej]; congr 1; omega, hrj⟩)]
    have h1 : fuel' - k = fuel' + 1 - (k + 1) := by omega
    have h2 : i + 1 + k = i + (k + 1) := by omega
    rw [h1, h2]
    have h3 : (List.range (k + 1)).map (fun j => 2 ^ (i + j)) =
        2 ^ i :: (List.range k).map (fun j => 2 ^ (i + 1 + j)) := by
      rw [List.range_succ_eq_map, List.map_cons, List.map_map]
      refine congrArg₂ _ (by rw [Nat.add_zero]) ?_
      apply List.map_congr_left
      intro a _
      show 2 ^ (i + (a + 1)) = 2 ^ (i + 1 + a)
      congr 1
      omega
    rw [h3]
    rfl

/-- C4 (amended): failures classified as authentication, host-resolution,
or permission-denied errors are raised immediately on the attempt that
produced them, with no further retry; failures of the remaining classes
(refused, timeout, generic) are retried up to `retries` attempts with
exponential backoff doubling from a 1-second base; and exhausting all
attempts on retryable failures raises a connection error. -/
theorem C4_connect_retry_policy (attempts : Nat → Option String) (retries : Nat) :
    (∀ i e, i < retries →
      (∀ j, j < i → ∃ ej, attempts j = some ej ∧
        nonretryable (classify_error ej) = false) →
      attempts i = some e → nonretryable (classify_error e) = true →
      ssh_connect attempts retries =
        (.terminal (classify_error e) i, (List.range i).map (fun j => 2 ^ j))) ∧
    (∀ i, i < retries →
      (∀ j, j < i → ∃ ej, attempts j = some ej ∧
        nonretryable (classify_error ej) = false) →
      attempts i = none →
      ssh_connect attempts retries =
        (.connected i, (List.range i).map (fun j => 2 ^ j))) ∧
    ((∀ j, j < retries → ∃ ej, attempts j = some ej ∧
        nonretryable (classify_error ej) = false) →
      ssh_connect attempts retries =
        (.exhausted, (List.range (retries - 1)).map (fun j => 2 ^ j))) := by
  refine ⟨?_, ?_, ?_⟩
  · intro i e hi hskip he hnr
    unfold ssh_connect
    rw [connect_go_skip attempts retries i 0 retries (by omega) hi
      (fun j hj => by simpa using hskip j hj)]
    obtain ⟨f, hf⟩ : ∃ f, retries - i = f + 1 := ⟨retries - i - 1, by omega⟩
    rw [Nat.zero_add, hf, connect_go, he]
    simp [hnr]
  · intro i hi hskip he
    unfold ssh_connect
    rw [connect_go_skip attempts retries i 0 retries (by omega) hi
      (fun j hj => by simpa using hskip j hj)]
    obtain ⟨f, hf⟩ : ∃ f, retries - i = f + 1 := ⟨retries - i - 1, by omega⟩
    rw [Nat.zero_add, hf, connect_go, he]
    simp
  · intro hall
    cases retries with
    | zero => simp [ssh_connect, connect_go]
    | succ n =>
      unfold ssh_connect
      rw [connect_go_skip attempts (n + 1) n 0 (n + 1) (by omega) (by omega)
        (fun j hj => by simpa using hall j (by omega))]
      obtain ⟨e, he, hr⟩ := hall n (by omega)
      have h1 : n + 1 - n = 1 := by omega
      rw [Nat.zero_add, h1, connect_go, he]
      have hlt : ¬ (n + 1 < n + 1) := by omega
      simp [hr, hlt, connect_go]

/-- C4 counterexample: a failure whose lowered text matches "permission
denied" — which the code classifies as neither an authentication nor a
host-resolution error — is raised immediately on attempt 0 with no retry
and no backoff sleep, contradicting the claim that all failures outside
those two classes are retried up to `retries` attempts. -/
theorem C4_counterexample :
    classify_error "Permission denied (publickey)" ≠ ErrClass.auth_failed ∧
    classify_error "Permission denied (publickey)" ≠ ErrClass.host_not_found ∧
    ssh_connect (fun _ => some "Permission denied (publickey)") 3 =
      (ConnectOutcome.terminal ErrClass.permission_denied 0, []) :=
  ⟨by decide, by decide, by decide⟩

theorem C4_witness :
    (0 < 3 ∧ (fun _ => some "Authentication failed.") 0 = some "Authentication failed." ∧
      nonretryable (classify_error "Authentication failed.") = true ∧
      ssh_connect (fun _ => some "Authentication failed.") 3 =
        (.terminal (classify_error "Authentication failed.") 0,
          (List.range 0).map (fun j => 2 ^ j))) ∧
    ((∀ j, j < 3 → ∃ ej, (fun _ => some "Connection timed out") j = some ej ∧
        nonretryable (classify_error ej) = false) ∧
      ssh_connect (fun _ => some "Connection timed out") 3 =
        (.exhausted, (List.range 2).map (fun j => 2 ^ j))) := by
  refine ⟨⟨by omega, rfl, by decide, ?_⟩, ⟨?_, ?_⟩⟩
  · exact (C4_connect_retry_policy (fun _ => some "Authentication failed.") 3).1 0
      "Authentication failed." (by omega) (by omega) rfl (by decide)
  · intro j hj
    exact ⟨"Connection timed out", rfl, by decide⟩
  · exact (C4_connect_retry_policy (fun _ => some "Connection timed out") 3).2.2
      (fun j hj => ⟨"Connection timed out", rfl, by decide⟩)

/-! ## C3 -/

/-- C3 counterexample: on node text declaring 2 GPUs with 4 in use — a
shape the claim requires the parser to reject as "no GPU data" — the code
returns a record with free = -2 instead of returning nothing. -/
theorem C3_counterexample :
    get_gpu_info
      (CommandResult.mk "NodeName=gpu01 Gres=gpu:a100:2 GresUsed=gpu:a100:4" "" 0 true) =
      some { gpu_type := "a100", total := 2, used := 4, free := -2 } ∧
    (-2 : Int) < 0 :=
  ⟨by decide, by decide⟩

/-- C3 (amended): every GpuInfo the parser returns satisfies
free = total − used, but free may be negative when the in-use count
exceeds the declared count; the parser emits such a record rather than
degrading to "no GPU data". -/
theorem C3_gpu_free_eq (result : CommandResult) (g : GPUInfo)
    (h : get_gpu_info result = some g) : g.free = g.total - g.used := by
  unfold get_gpu_info at h
  by_cases hc : (!result.ok || result.stdout == "") = true
  · rw [if_pos hc] at h
    cases h
  · rw [if_neg hc] at h
    unfold get_gpu_info_parse at h
    rcases h1 : find_typed "Gres=gpu:" result.stdout with _ | ⟨ty, total⟩
    · rw [h1] at h
      rcases h2 : find_untyped "Gres=gpu:" result.stdout with _ | total
      · rw [h2] at h
        cases h
      · rw [h2] at h
        injection h with h3
        subst h3
        rfl
    · rw [h1] at h
      injection h with h3
      subst h3
      rfl

theorem C3_witness :
    get_gpu_info (CommandResult.mk "Gres=gpu:v100:8 GresUsed=gpu:v100:3" "" 0 true) =
      some { gpu_type := "v100", total := 8, used := 3, free := 5 } ∧
    (GPUInfo.mk "v100" 8 3 5).free = (GPUInfo.mk "v100" 8 3 5).total - (GPUInfo.mk "v100" 8 3 5).used :=
  ⟨by decide,
   C3_gpu_free_eq (CommandResult.mk "Gres=gpu:v100:8 GresUsed=gpu:v100:3" "" 0 true)
     (GPUInfo.mk "v100" 8 3 5) (by decide)⟩

/-! ## C9 -/

theorem matchLit_append : ∀ (xs ys : List Char), matchLit xs (xs ++ ys) = some ys := by
  intro xs
  induction xs with
  | nil => intro ys; rfl
  | cons x xs ih =>
    intro ys
    simp [matchLit, ih]

theorem takeWhile_append_all {p : Char → Bool} :
    ∀ (l r : List Char), (∀ c ∈ l, p c = true) →
      (l ++ r).takeWhile p = l ++ r.takeWhile p := by
  intro l
  induction l with
  | nil => intro r _; rfl
  | cons x xs ih =>
    intro r h
    have hx : p x = true := h x (List.mem_cons_self _ _)
    simp only [List.cons_append, List.takeWhile_cons, hx, if_pos]
    rw [ih r (fun c hc => h c (List.mem_cons_of_mem _ hc))]

theorem dropWhile_append_all {p : Char → Bool} :
    ∀ (l r : List Char), (∀ c ∈ l, p c = true) →
      (l ++ r).dropWhile p = r.dropWhile p := by
  intro l
  induction l with
  | nil => intro r _; rfl
  | cons x xs ih =>
    intro r h
    have hx : p x = true := h x (List.mem_cons_self _ _)
    simp only [List.cons_append, List.dropWhile_cons, hx, if_pos]
    exact ih r (fun c hc => h c (List.mem_cons_of_mem _ hc))

theorem reSearch_first {α : Type} (m : List Char → Option α) :
    ∀ (k : Nat) (l : List Char) (v : α),
      (∀ i, i < k → m (l.drop i) = none) → m (l.drop k) = some v →
      reSearch m l = some v := by
  intro k
  induction k with
  | zero =>
    intro l v _ h2
    rw [List.drop_zero] at h2
    cases l with
    | nil => simpa [reSearch] using h2
    | cons c rest => simp [reSearch, h2]
  | succ k ih =>
    intro l v h1 h2
    have h0 : m l = none := by simpa using h1 0 (by omega)
    cases l with
    | nil =>
      rw [List.drop_nil] at h2
      rw [h0] at h2
      cases h2
    | cons c rest =>
      simp only [reSearch, h0]
      apply ih
      · intro i hi
        simpa using h1 (i + 1) (by omega)
      · simpa using h2

theorem reTypedAt_exact (lit ty d post : List Char)
    (hty : ty ≠ []) (htyw : ∀ c ∈ ty, isWordChar c = true)
    (hd : d ≠ []) (hdd : ∀ c ∈ d, c.isDigit = true)
    (hpost : ∀ c, post.head? = some c → c.isDigit = false) :
    reTypedAt lit (lit ++ (ty ++ ':' :: (d ++ post))) = some (ty, d) := by
  unfold reTypedAt
  rw [matchLit_append]
  have htake : (ty ++ ':' :: (d ++ post)).takeWhile isWordChar = ty := by
    rw [takeWhile_append_all _ _ htyw]
    simp [List.takeWhile_cons, isWordChar]
  have hdrop : (ty ++ ':' :: (d ++ post)).dropWhile isWordChar = ':' :: (d ++ post) := by
    rw [dropWhile_append_all _ _ htyw]
    simp [List.dropWhile_cons, isWordChar]
  have htd : (d ++ post).takeWhile Char.isDigit = d := by
    rw [takeWhile_append_all _ _ hdd]
    cases post with
    | nil => simp
    | cons c cs =>
      have hc := hpost c rfl
      simp [List.takeWhile_cons, hc]
  simp only [htake, hdrop, htd]
  have h1 : ty.isEmpty = false := by simpa [List.isEmpty_iff] using hty
  have h2 : d.isEmpty = false := by simpa [List.isEmpty_iff] using hd
  simp [h1, h2]

theorem reUntypedAt_exact (lit d post : List Char)
    (hd : d ≠ []) (hdd : ∀ c ∈ d, c.isDigit = true)
    (hpost : ∀ c, post.head? = some c → c.isDigit = false) :
    reUntypedAt lit (lit ++ (d ++ post)) = some d := by
  unfold reUntypedAt
  rw [matchLit_append]
  have htd : (d ++ post).takeWhile Char.isDigit = d := by
    rw [takeWhile_append_all _ _ hdd]
    cases post with
    | nil => simp
    | cons c cs =>
      have hc := hpost c rfl
      simp [List.takeWhile_cons, hc]
  simp only [htd]
  have h2 : d.isEmpty = false := by simpa [List.isEmpty_iff] using hd
  simp [h2]

theorem str_data_append (a b : String) : (a ++ b).data = a.data ++ b.data := rfl

theorem find_typed_at (pre ty d post : String)
    (hty : ty.data ≠ []) (htyw : ∀ c ∈ ty.data, isWordChar c = true)
    (hd : d.data ≠ []) (hdd : ∀ c ∈ d.data, c.isDigit = true)
    (hpost : ∀ c, post.data.head? = some c → c.isDigit = false)
    (hpre : ∀ i, i < pre.length →
      matchLit "Gres=gpu:".data
        ((pre ++ "Gres=gpu:" ++ ty ++ ":" ++ d ++ post).data.drop i) = none) :
    find_typed "Gres=gpu:" (pre ++ "Gres=gpu:" ++ ty ++ ":" ++ d ++ post) =
      some (ty, digitsToNat d.data) := by
  have hdata : (pre ++ "Gres=gpu:" ++ ty ++ ":" ++ d ++ post).data =
      pre.data ++ ("Gres=gpu:".data ++ (ty.data ++ ':' :: (d.data ++ post.data))) := by
    simp [str_data_append, List.append_assoc]
  unfold find_typed
  have hsearch : reSearch (reTypedAt "Gres=gpu:".data)
      ((pre ++ "Gres=gpu:" ++ ty ++ ":" ++ d ++ post).data) = some (ty.data, d.data) := by
    apply reSearch_first _ pre.data.length
    · intro i hi
      unfold reTypedAt
      rw [hpre i hi]
    · rw [hdata, List.drop_left]
      exact reTypedAt_exact _ _ _ _ hty htyw hd hdd hpost
  rw [hsearch]
  rfl

theorem find_untyped_at (pre d post : String)
    (hd : d.data ≠ []) (hdd : ∀ c ∈ d.data, c.isDigit = true)
    (hpost : ∀ c, post.data.head? = some c → c.isDigit = false)
    (hpre : ∀ i, i < pre.length →
      matchLit "Gres=gpu:".data
        ((pre ++ "Gres=gpu:" ++ d ++ post).data.drop i) = none) :
    find_untyped "Gres=gpu:" (pre ++ "Gres=gpu:" ++ d ++ post) =
      some (digitsToNat d.data) := by
  have hdata : (pre ++ "Gres=gpu:" ++ d ++ post).data =
      pre.data ++ ("Gres=gpu:".data ++ (d.data ++ post.data)) := by
    simp [str_data_append, List.append_assoc]
  unfold find_untyped
  have hsearch : reSearch (reUntypedAt "Gres=gpu:".data)
      ((pre ++ "Gres=gpu:" ++ d ++ post).data) = some d.data := by
    apply reSearch_first _ pre.data.length
    · intro i hi
      unfold reUntypedAt
      rw [hpre i hi]
    · rw [hdata, List.drop_left]
      exact reUntypedAt_exact _ _ _ hd hdd hpost
  rw [hsearch]
  rfl

/-- C9: a typed declaration token gpu:TYPE:N in the node text parses to a
GpuInfo with that type and total N; an untyped token gpu:N parses with the
type resolving to the literal "gpu" and total N; and text in which neither
pattern matches yields no GpuInfo at all, which is distinct from a GpuInfo
with zero GPUs.  (The position hypotheses pin the shown token as the
leftmost occurrence of the `Gres=gpu:` literal.) -/
theorem C9_gpu_token_grammar :
    (∀ pre ty d post : String,
      ty.data ≠ [] → (∀ c ∈ ty.data, isWordChar c = true) →
      d.data ≠ [] → (∀ c ∈ d.data, c.isDigit = true) →
      (∀ c, post.data.head? = some c → c.isDigit = false) →
      (∀ i, i < pre.length →
        matchLit "Gres=gpu:".data
          ((pre ++ "Gres=gpu:" ++ ty ++ ":" ++ d ++ post).data.drop i) = none) →
      get_gpu_info_parse (pre ++ "Gres=gpu:" ++ ty ++ ":" ++ d ++ post) =
        some ⟨ty, (digitsToNat d.data : Int),
          (typedUsed (pre ++ "Gres=gpu:" ++ ty ++ ":" ++ d ++ post) : Int),
          (digitsToNat d.data : Int) -
            (typedUsed (pre ++ "Gres=gpu:" ++ ty ++ ":" ++ d ++ post) : Int)⟩) ∧
    (∀ pre d post : String,
      d.data ≠ [] → (∀ c ∈ d.data, c.isDigit = true) →
      (∀ c, post.data.head? = some c → c.isDigit = false) →
      find_typed "Gres=gpu:" (pre ++ "Gres=gpu:" ++ d ++ post) = none →
      (∀ i, i < pre.length →
        matchLit "Gres=gpu:".data
          ((pre ++ "Gres=gpu:" ++ d ++ post).data.drop i) = none) →
      get_gpu_info_parse (pre ++ "Gres=gpu:" ++ d ++ post) =
        some ⟨"gpu", (digitsToNat d.data : Int),
          (untypedUsed (pre ++ "Gres=gpu:" ++ d ++ post) : Int),
          (digitsToNat d.data : Int) -
            (untypedUsed (pre ++ "Gres=gpu:" ++ d ++ post) : Int)⟩) ∧
    (∀ text : String,
      find_typed "Gres=gpu:" text = none → find_untyped "Gres=gpu:" text = none →
      get_gpu_info_parse text = none ∧
      ∀ g : GPUInfo, get_gpu_info_parse text ≠ some g) := by
  refine ⟨?_, ?_, ?_⟩
  · intro pre ty d post hty htyw hd hdd hpost hpre
    unfold get_gpu_info_parse
    rw [find_typed_at pre ty d post hty htyw hd hdd hpost hpre]
  · intro pre d post hd hdd hpost hnone hpre
    unfold get_gpu_info_parse
    rw [hnone, find_untyped_at pre d post hd hdd hpost hpre]
  · intro text h1 h2
    constructor
    · unfold get_gpu_info_parse
      rw [h1, h2]
    · intro g hcon
      unfold get_gpu_info_parse at hcon
      rw [h1, h2] at hcon
      cases hcon

theorem C9_witness :
    get_gpu_info_parse ("NodeName=gpu01 " ++ "Gres=gpu:" ++ "a100" ++ ":" ++ "4" ++ " Boards=1") =
      some ⟨"a100", (digitsToNat "4".data : Int),
        (typedUsed ("NodeName=gpu01 " ++ "Gres=gpu:" ++ "a100" ++ ":" ++ "4" ++ " Boards=1") : Int),
        (digitsToNat "4".data : Int) -
          (typedUsed ("NodeName=gpu01 " ++ "Gres=gpu:" ++ "a100" ++ ":" ++ "4" ++ " Boards=1") : Int)⟩ ∧
    get_gpu_info_parse ("NodeName=gpu02 " ++ "Gres=gpu:" ++ "8" ++ "") =
      some ⟨"gpu", (digitsToNat "8".data : Int),
        (untypedUsed ("NodeName=gpu02 " ++ "Gres=gpu:" ++ "8" ++ "") : Int),
        (digitsToNat "8".data : Int) -
          (untypedUsed ("NodeName=gpu02 " ++ "Gres=gpu:" ++ "8" ++ "") : Int)⟩ ∧
    get_gpu_info_parse "NodeName=cpu01 State=IDLE" = none :=
  ⟨C9_gpu_token_grammar.1 "NodeName=gpu01 " "a100" "4" " Boards=1"
     (by decide) (by decide) (by decide) (by decide) (by decide) (by decide),
   C9_gpu_token_grammar.2.1 "NodeName=gpu02 " "8" ""
     (by decide) (by decide) (by decide) (by decide) (by decide),
   (C9_gpu_token_grammar.2.2 "NodeName=cpu01 State=IDLE" (by decide) (by decide)).1⟩

end Slurmit
